import Mathlib

/-!
Shallow embedding of the alert lifecycle manager in `src/q2.py`
(`AlertLevel`, the threshold and repeat-time tables, `Alert`,
`CloudMonitor`).  Metrics and timestamps are rationals; the current time
is passed in explicitly (the Python code reads `datetime.now()`, which is
the single instant of one call).  Python dictionary lookups are embedded
as `Option`-valued functions (`none` models a `KeyError`), so
`handle_alerts` is `Option`-valued and totality is a theorem, not an
assumption.  Side effects (`send_email`, the remediation roll) are
reified as an `Effect` list returned alongside the new state; the
probabilistic remediation roll is an explicit boolean input.
-/

/-- The `AlertLevel` enum of q2.py. -/
inductive AlertLevel where
  | P0
  | P1
  | P2
  | NO_ALERT
deriving DecidableEq, Repr

/-- The `.value` string of each enum member, exactly as in q2.py. -/
def AlertLevel.value : AlertLevel → String
  | .P0 => "P0 (Critical)"
  | .P1 => "P1 (Major)"
  | .P2 => "P2 (Minor)"
  | .NO_ALERT => "No Alert"

/-- Severity rank used in specification statements: NONE < LOW < MAJOR < CRITICAL. -/
def AlertLevel.rank : AlertLevel → Nat
  | .NO_ALERT => 0
  | .P2 => 1
  | .P1 => 2
  | .P0 => 3

/-- One entry of the `ALERT_THRESHOLDS` table. -/
structure Thresholds where
  latency : ℚ
  failure_rate : ℚ
deriving DecidableEq, Repr

/-- The `ALERT_THRESHOLDS` dictionary of q2.py; `none` models a `KeyError`. -/
def ALERT_THRESHOLDS : AlertLevel → Option Thresholds
  | .P0 => some ⟨2000, 10⟩
  | .P1 => some ⟨1000, 5⟩
  | .P2 => some ⟨500, 2⟩
  | .NO_ALERT => none

/-- The `ALERT_REPEAT_TIMES` dictionary of q2.py (seconds); `none` models a `KeyError`. -/
def ALERT_REPEAT_TIMES : AlertLevel → Option ℚ
  | .P0 => some 2
  | .P1 => some 12
  | .P2 => some 48
  | .NO_ALERT => none

/-- The `Alert` class of q2.py: severity, trigger time, last-notification time. -/
structure Alert where
  alert_level : AlertLevel
  trigger_time : ℚ
  last_notified : ℚ
deriving DecidableEq, Repr

/-- `Alert.__init__`: both timestamps are set to the current time. -/
def Alert.create (lvl : AlertLevel) (now : ℚ) : Alert :=
  { alert_level := lvl, trigger_time := now, last_notified := now }

/-- `Alert.update_last_notified`: bump the last-notified time to the current time. -/
def Alert.update_last_notified (a : Alert) (now : ℚ) : Alert :=
  { a with last_notified := now }

/-- `Alert.time_since_trigger`. -/
def Alert.time_since_trigger (a : Alert) (now : ℚ) : ℚ :=
  now - a.trigger_time

/-- `Alert.time_since_last_notified`. -/
def Alert.time_since_last_notified (a : Alert) (now : ℚ) : ℚ :=
  now - a.last_notified

/-- One record of the classification log (`log_history` in q2.py); the
    Python code stores a formatted string with exactly these fields. -/
structure LogEntry where
  timestamp : ℚ
  latency : ℚ
  failure_rate : ℚ
  alert_level : AlertLevel
deriving DecidableEq, Repr

/-- The mutable state of the `CloudMonitor` class. -/
structure CloudMonitor where
  current_alert : Option Alert
  log_history : List LogEntry
deriving DecidableEq, Repr

/-- `CloudMonitor.__init__`: no alert, empty log. -/
def CloudMonitor.init : CloudMonitor :=
  { current_alert := none, log_history := [] }

/-- The side effects emitted by the engine: `send_email(level, recipient)`
    and the mocked PR merge of the remediation roll. -/
inductive Effect where
  | notify (level : AlertLevel) (recipient : String)
  | triggerRemediation
deriving DecidableEq, Repr

/-- The hardcoded primary recipient of q2.py. -/
def primary_recipient : String := "team@company.com"

/-- The hardcoded secondary ("boss") recipient of q2.py. -/
def secondary_recipient : String := "boss@company.com"

/-- Whether an effect is a notification to recipient `r`. -/
def Effect.isNotifyTo (r : String) : Effect → Bool
  | .notify _ recip => recip == r
  | .triggerRemediation => false

/-- Number of notifications to recipient `r` in an effect list. -/
def notifyCount (effs : List Effect) (r : String) : Nat :=
  (effs.filter (Effect.isNotifyTo r)).length

/-- `CloudMonitor.classify_alert` of q2.py: threshold table checked most to
    least severe, strict `>`, latency OR failure rate. -/
def classify_alert (latency failure_rate : ℚ) : Option AlertLevel := do
  let t0 ← ALERT_THRESHOLDS .P0
  if latency > t0.latency ∨ failure_rate > t0.failure_rate then
    pure .P0
  else do
    let t1 ← ALERT_THRESHOLDS .P1
    if latency > t1.latency ∨ failure_rate > t1.failure_rate then
      pure .P1
    else do
      let t2 ← ALERT_THRESHOLDS .P2
      if latency > t2.latency ∨ failure_rate > t2.failure_rate then
        pure .P2
      else
        pure .NO_ALERT

/-- The log capacity: 90 days at 5-minute intervals (q2.py line 135). -/
def LOG_CAPACITY : Nat := 90 * 24 * 12

/-- `CloudMonitor.log_status`: append the record, then `pop(0)` the oldest
    entry if the log exceeds capacity. -/
def CloudMonitor.log_status (m : CloudMonitor) (latency failure_rate : ℚ)
    (lvl : AlertLevel) (now : ℚ) : CloudMonitor :=
  let h := m.log_history ++ [⟨now, latency, failure_rate, lvl⟩]
  if h.length > LOG_CAPACITY then
    { m with log_history := h.tail }
  else
    { m with log_history := h }

/-- `CloudMonitor.resolve_alert`: clear the current alert (a pure print
    when no alert is open). -/
def CloudMonitor.resolve_alert (m : CloudMonitor) : CloudMonitor :=
  { m with current_alert := none }

/-- `CloudMonitor.handle_alerts` of q2.py, with the current time `now`
    made explicit and the 10%-probability remediation roll reified as the
    boolean `remedRoll`.  The severity comparison on line 159 of q2.py
    compares the enum members' display strings lexicographically; it is
    embedded as the lexicographic order on their character lists, which is
    exactly how `String` order is defined. -/
def handle_alerts (m : CloudMonitor) (latency failure_rate now : ℚ)
    (remedRoll : Bool) : Option (CloudMonitor × List Effect) := do
  let new_alert_level ← classify_alert latency failure_rate
  if new_alert_level = AlertLevel.NO_ALERT then
    if m.current_alert.isSome then
      pure (m.resolve_alert, [])
    else
      pure (m, [])
  else do
    let step ← (match m.current_alert with
      | none =>
          some ({ m with current_alert := some (Alert.create new_alert_level now) },
                [Effect.notify new_alert_level primary_recipient])
      | some cur =>
          if new_alert_level.value.data < cur.alert_level.value.data then
            some ({ m with current_alert := some (Alert.create new_alert_level now) },
                  [Effect.notify new_alert_level primary_recipient])
          else if new_alert_level = cur.alert_level then
            (ALERT_REPEAT_TIMES new_alert_level).bind (fun rt =>
              if cur.time_since_last_notified now ≥ rt then
                some ({ m with current_alert := some (cur.update_last_notified now) },
                      [Effect.notify new_alert_level primary_recipient])
              else
                some (m, []))
          else
            some (m, []))
    let m1 := step.1
    let effs1 := step.2
    let effs2 ← (match m1.current_alert with
      | some cur =>
          (ALERT_REPEAT_TIMES cur.alert_level).bind (fun rt =>
            if cur.time_since_trigger now ≥ rt * 5 then
              some [Effect.notify cur.alert_level secondary_recipient]
            else
              some ([] : List Effect))
      | none => some ([] : List Effect))
    let effs3 := if m1.current_alert.isSome && remedRoll then
        [Effect.triggerRemediation]
      else
        ([] : List Effect)
    pure (m1, effs1 ++ effs2 ++ effs3)

/-- A non-`NO_ALERT` severity strictly exceeds its threshold entry when its
    latency or failure-rate limit is strictly exceeded; `NO_ALERT` has no
    entry and never counts as exceeded.  (Spec-side predicate used to state
    what `classify_alert` computes.) -/
def exceeds (s : AlertLevel) (latency failure_rate : ℚ) : Prop :=
  match ALERT_THRESHOLDS s with
  | some t => latency > t.latency ∨ failure_rate > t.failure_rate
  | none => False

/-- The log record one `log_status` call appends, from its argument tuple
    `(latency, failure_rate, severity, timestamp)`. -/
def entryOf (s : ℚ × ℚ × AlertLevel × ℚ) : LogEntry :=
  ⟨s.2.2.2, s.1, s.2.1, s.2.2.1⟩

/-- Repeated `log_status` calls, one per sample, as the monitoring loop
    performs them. -/
def run_log (m : CloudMonitor) (samples : List (ℚ × ℚ × AlertLevel × ℚ)) : CloudMonitor :=
  samples.foldl (fun acc s => acc.log_status s.1 s.2.1 s.2.2.1 s.2.2.2) m

/-! ### Helper lemmas -/

/-- The display-string order of q2.py agrees with severity rank, reversed:
    a lexicographically smaller label is a strictly more severe level
    (this only holds away from `NO_ALERT`, whose label sorts below all
    `P*` labels). -/
theorem value_data_lt_iff (a b : AlertLevel) (ha : a ≠ .NO_ALERT) (hb : b ≠ .NO_ALERT) :
    a.value.data < b.value.data ↔ b.rank < a.rank := by
  cases a <;> cases b <;>
    first
      | exact absurd rfl ha
      | exact absurd rfl hb
      | decide

/-- The repeat-time table is defined and positive away from `NO_ALERT`. -/
theorem repeat_time_exists (lvl : AlertLevel) (h : lvl ≠ .NO_ALERT) :
    ∃ rt : ℚ, ALERT_REPEAT_TIMES lvl = some rt ∧ 0 < rt := by
  cases lvl <;> first
    | exact absurd rfl h
    | exact ⟨_, rfl, by norm_num⟩

theorem notifyCount_nil (r : String) : notifyCount [] r = 0 := rfl

theorem notifyCount_append (a b : List Effect) (r : String) :
    notifyCount (a ++ b) r = notifyCount a r + notifyCount b r := by
  simp [notifyCount, List.filter_append]

theorem notifyCount_cons (e : Effect) (l : List Effect) (r : String) :
    notifyCount (e :: l) r =
      (if e.isNotifyTo r then 1 else 0) + notifyCount l r := by
  simp only [notifyCount, List.filter_cons]
  split <;> simp [Nat.add_comm]

theorem notifyCount_remed_ite (b : Bool) (r : String) :
    notifyCount (if b then [Effect.triggerRemediation] else []) r = 0 := by
  cases b <;> simp [notifyCount, Effect.isNotifyTo]

theorem notifyCount_single_notify (lvl : AlertLevel) (r : String) :
    notifyCount [Effect.notify lvl r] r = 1 := by
  simp [notifyCount, Effect.isNotifyTo]

theorem primary_ne_secondary : primary_recipient ≠ secondary_recipient := by
  decide

theorem notifyCount_sec_ite (c : Prop) [Decidable c] (lvl : AlertLevel) :
    notifyCount (if c then [Effect.notify lvl secondary_recipient] else []) primary_recipient
      = 0 := by
  split <;> simp [notifyCount, Effect.isNotifyTo, primary_recipient, secondary_recipient]

example : classify_alert 600 0 = some .P2 := by decide
example : classify_alert 0 11 = some .P0 := by decide
example : classify_alert (-5) (-1) = some .NO_ALERT := by decide
example : AlertLevel.P0.value.data < AlertLevel.P1.value.data := by decide
example : ¬ (AlertLevel.P0.value.data < AlertLevel.NO_ALERT.value.data) := by decide
example :
    handle_alerts CloudMonitor.init 600 0 100 false =
      some ({ current_alert := some (Alert.create .P2 100), log_history := [] },
            [Effect.notify .P2 primary_recipient]) := by
  norm_num [handle_alerts, classify_alert, ALERT_THRESHOLDS, ALERT_REPEAT_TIMES,
    CloudMonitor.init, Alert.create, Alert.time_since_trigger]
  decide

/-! ### Branch lemmas for `handle_alerts` -/

/-- A sample classifying `NO_ALERT` clears any open alert and emits no
    effects; with no open alert it is a no-op. -/
theorem handle_alerts_resolve
    (m : CloudMonitor) (latency failure_rate now : ℚ) (roll : Bool)
    (hc : classify_alert latency failure_rate = some .NO_ALERT) :
    handle_alerts m latency failure_rate now roll =
      some ({ m with current_alert := none }, []) := by
  cases m with
  | mk cur log => cases cur <;> simp [handle_alerts, hc, CloudMonitor.resolve_alert]

/-- With no open alert, a non-`NO_ALERT` sample opens a fresh alert at the
    sample's severity with both timestamps `now`, and notifies the primary
    recipient (plus at most a remediation roll). -/
theorem handle_alerts_open_new
    (m : CloudMonitor) (latency failure_rate now : ℚ) (roll : Bool) (lvl : AlertLevel)
    (hc : classify_alert latency failure_rate = some lvl) (hlvl : lvl ≠ .NO_ALERT)
    (hm : m.current_alert = none) :
    handle_alerts m latency failure_rate now roll =
      some ({ m with current_alert := some (Alert.create lvl now) },
            Effect.notify lvl primary_recipient ::
              (if roll then [Effect.triggerRemediation] else [])) := by
  obtain ⟨rt, hrt, hpos⟩ := repeat_time_exists lvl hlvl
  have hno : ¬ (rt * 5 ≤ 0) := by
    intro h
    linarith
  simp [handle_alerts, hc, hm, hlvl, hrt, hno, Alert.create, Alert.time_since_trigger]

/-- With an open alert and a sample classifying strictly higher, the alert
    is replaced by a fresh one at the sample's severity (both timestamps
    `now`) and the primary recipient is notified. -/
theorem handle_alerts_escalate
    (m : CloudMonitor) (cur : Alert) (latency failure_rate now : ℚ) (roll : Bool)
    (lvl : AlertLevel)
    (hc : classify_alert latency failure_rate = some lvl) (hlvl : lvl ≠ .NO_ALERT)
    (hm : m.current_alert = some cur) (hcur : cur.alert_level ≠ .NO_ALERT)
    (hrank : cur.alert_level.rank < lvl.rank) :
    handle_alerts m latency failure_rate now roll =
      some ({ m with current_alert := some (Alert.create lvl now) },
            Effect.notify lvl primary_recipient ::
              (if roll then [Effect.triggerRemediation] else [])) := by
  obtain ⟨rt, hrt, hpos⟩ := repeat_time_exists lvl hlvl
  have hlt : lvl.value.data < cur.alert_level.value.data :=
    (value_data_lt_iff lvl cur.alert_level hlvl hcur).mpr hrank
  have hno : ¬ (rt * 5 ≤ 0) := by
    intro h
    linarith
  simp [handle_alerts, hc, hm, hlvl, hlt, hrt, hno, Alert.create, Alert.time_since_trigger]

/-- With an open alert and a sample classifying at the same severity with
    the resend interval elapsed, the last-notified time is bumped to `now`
    and the primary recipient is re-notified; the secondary check then runs
    against the (unchanged) trigger time. -/
theorem handle_alerts_resend
    (m : CloudMonitor) (cur : Alert) (latency failure_rate now : ℚ) (roll : Bool) (rt : ℚ)
    (hc : classify_alert latency failure_rate = some cur.alert_level)
    (hm : m.current_alert = some cur) (hcur : cur.alert_level ≠ .NO_ALERT)
    (hrt : ALERT_REPEAT_TIMES cur.alert_level = some rt)
    (hdue : now - cur.last_notified ≥ rt) :
    handle_alerts m latency failure_rate now roll =
      some ({ m with current_alert := some (cur.update_last_notified now) },
            Effect.notify cur.alert_level primary_recipient ::
              ((if now - cur.trigger_time ≥ rt * 5 then
                  [Effect.notify cur.alert_level secondary_recipient]
                else []) ++
                (if roll then [Effect.triggerRemediation] else []))) := by
  have hns : ¬ (cur.alert_level.value.data < cur.alert_level.value.data) := by
    intro h
    exact absurd ((value_data_lt_iff _ _ hcur hcur).mp h) (lt_irrefl _)
  simp [handle_alerts, hc, hm, hcur, hns, hrt, Alert.update_last_notified,
    Alert.time_since_last_notified, Alert.time_since_trigger, hdue]
  split <;> simp

/-- With an open alert and a sample classifying at the same severity with
    the resend interval not yet elapsed, the state is unchanged and no
    primary notification is emitted. -/
theorem handle_alerts_no_resend
    (m : CloudMonitor) (cur : Alert) (latency failure_rate now : ℚ) (roll : Bool) (rt : ℚ)
    (hc : classify_alert latency failure_rate = some cur.alert_level)
    (hm : m.current_alert = some cur) (hcur : cur.alert_level ≠ .NO_ALERT)
    (hrt : ALERT_REPEAT_TIMES cur.alert_level = some rt)
    (hdue : ¬ (now - cur.last_notified ≥ rt)) :
    handle_alerts m latency failure_rate now roll =
      some (m,
            (if now - cur.trigger_time ≥ rt * 5 then
                [Effect.notify cur.alert_level secondary_recipient]
              else []) ++
              (if roll then [Effect.triggerRemediation] else [])) := by
  have hns : ¬ (cur.alert_level.value.data < cur.alert_level.value.data) := by
    intro h
    exact absurd ((value_data_lt_iff _ _ hcur hcur).mp h) (lt_irrefl _)
  simp [handle_alerts, hc, hm, hcur, hns, hrt, Alert.time_since_last_notified,
    Alert.time_since_trigger, hdue]
  split <;> simp

/-- With an open alert and a sample classifying strictly lower but above
    `NO_ALERT`, the state is unchanged and no primary notification is
    emitted. -/
theorem handle_alerts_lower
    (m : CloudMonitor) (cur : Alert) (latency failure_rate now : ℚ) (roll : Bool)
    (lvl : AlertLevel) (rt : ℚ)
    (hc : classify_alert latency failure_rate = some lvl) (hlvl : lvl ≠ .NO_ALERT)
    (hm : m.current_alert = some cur) (hcur : cur.alert_level ≠ .NO_ALERT)
    (hrank : lvl.rank < cur.alert_level.rank)
    (hrt : ALERT_REPEAT_TIMES cur.alert_level = some rt) :
    handle_alerts m latency failure_rate now roll =
      some (m,
            (if now - cur.trigger_time ≥ rt * 5 then
                [Effect.notify cur.alert_level secondary_recipient]
              else []) ++
              (if roll then [Effect.triggerRemediation] else [])) := by
  have hns : ¬ (lvl.value.data < cur.alert_level.value.data) := by
    intro h
    exact absurd ((value_data_lt_iff _ _ hlvl hcur).mp h)
      (Nat.lt_asymm hrank)
  have hne : lvl ≠ cur.alert_level := by
    rintro rfl
    exact lt_irrefl _ hrank
  simp [handle_alerts, hc, hm, hlvl, hns, hne, hrt, Alert.time_since_trigger]
  split <;> simp

/-! ### Classification -/

/-- `classify_alert` never hits a missing dictionary key: it returns a
    severity for every input. -/
theorem classify_total (latency failure_rate : ℚ) :
    ∃ lvl, classify_alert latency failure_rate = some lvl := by
  by_cases h0 : latency > 2000 ∨ failure_rate > 10
  · exact ⟨.P0, by simp [classify_alert, ALERT_THRESHOLDS, h0]⟩
  · by_cases h1 : latency > 1000 ∨ failure_rate > 5
    · exact ⟨.P1, by simp [classify_alert, ALERT_THRESHOLDS, h0, h1]⟩
    · by_cases h2 : latency > 500 ∨ failure_rate > 2
      · exact ⟨.P2, by simp [classify_alert, ALERT_THRESHOLDS, h0, h1, h2]⟩
      · exact ⟨.NO_ALERT, by simp [classify_alert, ALERT_THRESHOLDS, h0, h1, h2]⟩

/-- Severity rank determines the severity. -/
theorem rank_inj (a b : AlertLevel) (h : a.rank = b.rank) : a = b := by
  cases a <;> cases b <;> first | rfl | (exact absurd h (by decide))

/-- Any value present in the repeat-time table is positive. -/
theorem repeat_time_pos (lvl : AlertLevel) (rt : ℚ)
    (h : ALERT_REPEAT_TIMES lvl = some rt) : 0 < rt := by
  cases lvl <;> simp [ALERT_REPEAT_TIMES] at h
  all_goals (rw [← h]; norm_num)

/-- No `P*` label sorts below the `NO_ALERT` label. -/
theorem not_value_lt_no_alert (lvl : AlertLevel) (h : lvl ≠ .NO_ALERT) :
    ¬ lvl.value.data < AlertLevel.NO_ALERT.value.data := by
  cases lvl <;> first | exact absurd rfl h | decide

/-- C2: `classify_alert` is total on all rational inputs (including
    negative ones) and returns exactly the highest-ranked severity whose
    latency or failure-rate threshold is strictly exceeded — a severity is
    exceeded iff it is non-`NO_ALERT` and ranks at or below the returned
    one — and returns `NO_ALERT` when no threshold is exceeded. -/
theorem claim_C2_classify_total_highest (latency failure_rate : ℚ) :
    ∃ lvl, classify_alert latency failure_rate = some lvl ∧
      ∀ s, exceeds s latency failure_rate ↔
        (s ≠ AlertLevel.NO_ALERT ∧ s.rank ≤ lvl.rank) := by
  by_cases h0 : latency > 2000 ∨ failure_rate > 10
  · refine ⟨.P0, by simp [classify_alert, ALERT_THRESHOLDS, h0], fun s => ?_⟩
    cases s <;>
      simp [exceeds, ALERT_THRESHOLDS, AlertLevel.rank, h0] <;>
      rcases h0 with h | h <;>
      first
        | (left; linarith)
        | (right; linarith)
  · by_cases h1 : latency > 1000 ∨ failure_rate > 5
    · refine ⟨.P1, by simp [classify_alert, ALERT_THRESHOLDS, h0, h1], fun s => ?_⟩
      cases s <;>
        simp [exceeds, ALERT_THRESHOLDS, AlertLevel.rank, h0, h1]
      rcases h1 with h | h
      · left; linarith
      · right; linarith
    · by_cases h2 : latency > 500 ∨ failure_rate > 2
      · refine ⟨.P2, by simp [classify_alert, ALERT_THRESHOLDS, h0, h1, h2], fun s => ?_⟩
        cases s <;>
          simp [exceeds, ALERT_THRESHOLDS, AlertLevel.rank, h0, h1, h2]
      · refine ⟨.NO_ALERT, by simp [classify_alert, ALERT_THRESHOLDS, h0, h1, h2], fun s => ?_⟩
        cases s <;>
          simp [exceeds, ALERT_THRESHOLDS, AlertLevel.rank, h0, h1, h2]

/-! ### Inversion of `handle_alerts` -/

/-- Complete case analysis on a successful `handle_alerts` step: the log is
    untouched, and the resulting alert slot is empty (resolution), a fresh
    alert at the classified severity (opening or escalation — the latter
    only when the new label sorts strictly below the open one), the old
    alert unchanged, or the old alert with just its last-notified time
    bumped (and then its resend interval had elapsed). -/
theorem handle_alerts_inv_cases
    (m m' : CloudMonitor) (latency failure_rate now : ℚ) (roll : Bool) (effs : List Effect)
    (h : handle_alerts m latency failure_rate now roll = some (m', effs)) :
    m'.log_history = m.log_history ∧
    (m'.current_alert = none ∨
     (∃ lvl, classify_alert latency failure_rate = some lvl ∧ lvl ≠ .NO_ALERT ∧
        m'.current_alert = some (Alert.create lvl now) ∧
        ∀ cur, m.current_alert = some cur → lvl.value.data < cur.alert_level.value.data) ∨
     (∃ cur, m.current_alert = some cur ∧ m'.current_alert = some cur) ∨
     (∃ cur rt, m.current_alert = some cur ∧
        m'.current_alert = some (cur.update_last_notified now) ∧
        ALERT_REPEAT_TIMES cur.alert_level = some rt ∧
        rt ≤ now - cur.last_notified)) := by
  cases hcc : classify_alert latency failure_rate with
  | none =>
    simp only [handle_alerts, hcc, Option.pure_def, Option.bind_eq_bind,
      Option.none_bind] at h
    exact absurd h (by simp)
  | some lvl =>
    by_cases hno : lvl = .NO_ALERT
    · subst hno
      rw [handle_alerts_resolve m latency failure_rate now roll hcc] at h
      simp only [Option.some.injEq, Prod.mk.injEq] at h
      obtain ⟨h1, -⟩ := h
      subst h1
      exact ⟨rfl, Or.inl rfl⟩
    · simp only [handle_alerts, hcc, Option.pure_def, Option.bind_eq_bind,
        Option.some_bind, if_neg hno] at h
      cases hm : m.current_alert with
      | none =>
        simp only [hm] at h
        cases hrt : ALERT_REPEAT_TIMES lvl with
        | none =>
          simp only [Option.some_bind, Alert.create, hrt, Option.none_bind] at h
          exact absurd h (by simp)
        | some rt =>
          simp only [Option.some_bind, Alert.create, hrt] at h
          split at h <;>
            (simp only [Option.some_bind, Option.some.injEq, Prod.mk.injEq] at h;
             obtain ⟨h1, -⟩ := h;
             subst h1;
             exact ⟨rfl, Or.inr (Or.inl ⟨lvl, rfl, hno, rfl, fun cur hcur => by
               cases hcur⟩)⟩)
      | some cur =>
        simp only [hm] at h
        by_cases hlt : lvl.value.data < cur.alert_level.value.data
        · rw [if_pos hlt] at h
          cases hrt : ALERT_REPEAT_TIMES lvl with
          | none =>
            simp only [Option.some_bind, Alert.create, hrt, Option.none_bind] at h
            exact absurd h (by simp)
          | some rt =>
            simp only [Option.some_bind, Alert.create, hrt] at h
            split at h <;>
              (simp only [Option.some_bind, Option.some.injEq, Prod.mk.injEq] at h;
               obtain ⟨h1, -⟩ := h;
               subst h1;
               exact ⟨rfl, Or.inr (Or.inl ⟨lvl, rfl, hno, rfl, fun cur' hcur' => by
                 cases hcur'; exact hlt⟩)⟩)
        · rw [if_neg hlt] at h
          by_cases heq : lvl = cur.alert_level
          · subst heq
            rw [if_pos rfl] at h
            cases hrt : ALERT_REPEAT_TIMES cur.alert_level with
            | none =>
              simp only [hrt, Option.none_bind] at h
              exact absurd h (by simp)
            | some rt =>
              simp only [hrt, Option.some_bind] at h
              by_cases hdue : cur.time_since_last_notified now ≥ rt
              · rw [if_pos hdue] at h
                simp only [Alert.update_last_notified, hrt, Option.some_bind] at h
                split at h <;>
                  (simp only [Option.some_bind, Option.some.injEq, Prod.mk.injEq] at h;
                   obtain ⟨h1, -⟩ := h;
                   subst h1;
                   refine ⟨rfl, Or.inr (Or.inr (Or.inr ⟨cur, rt, rfl, rfl, hrt, ?_⟩))⟩;
                   simpa [Alert.time_since_last_notified, ge_iff_le] using hdue)
              · rw [if_neg hdue] at h
                simp only [hm, hrt, Option.some_bind] at h
                split at h <;>
                  (simp only [Option.some_bind, Option.some.injEq, Prod.mk.injEq] at h;
                   obtain ⟨h1, -⟩ := h;
                   subst h1;
                   exact ⟨rfl, Or.inr (Or.inr (Or.inl ⟨cur, rfl, hm⟩))⟩)
          · rw [if_neg heq] at h
            simp only [Option.some_bind, hm] at h
            cases hrt : ALERT_REPEAT_TIMES cur.alert_level with
            | none =>
              simp only [hrt, Option.none_bind] at h
              exact absurd h (by simp)
            | some rt =>
              simp only [hrt, Option.some_bind] at h
              split at h <;>
                (simp only [Option.some_bind, Option.some.injEq, Prod.mk.injEq] at h;
                 obtain ⟨h1, -⟩ := h;
                 subst h1;
                 exact ⟨rfl, Or.inr (Or.inr (Or.inl ⟨cur, rfl, hm⟩))⟩)

/-! ### Claims -/

/-- C6: a sample classifying `NO_ALERT` while an alert is open clears the
    alert (the engine returns to the no-alert state) and emits no effect to
    any recipient; with no open alert it is a no-op. -/
theorem claim_C6_resolution_silent
    (m : CloudMonitor) (latency failure_rate now : ℚ) (roll : Bool)
    (hc : classify_alert latency failure_rate = some .NO_ALERT) :
    handle_alerts m latency failure_rate now roll =
      some ({ m with current_alert := none }, []) :=
  handle_alerts_resolve m latency failure_rate now roll hc

theorem claim_C6_witness :
    classify_alert 100 1 = some AlertLevel.NO_ALERT ∧
      handle_alerts { current_alert := some ⟨.P1, 0, 0⟩, log_history := [] } 100 1 5 false =
        some ({ current_alert := none, log_history := [] }, []) :=
  ⟨by decide,
   claim_C6_resolution_silent { current_alert := some ⟨.P1, 0, 0⟩, log_history := [] }
     100 1 5 false (by decide)⟩

/-- C10: with no open alert and a `NO_ALERT`-classifying sample,
    `handle_alerts` returns the state unchanged with no effects, and
    feeding the result through `handle_alerts` again with the same sample
    and time again returns the same state with no effects. -/
theorem claim_C10_idempotent_noop
    (m : CloudMonitor) (latency failure_rate now : ℚ) (roll : Bool)
    (hm : m.current_alert = none)
    (hc : classify_alert latency failure_rate = some .NO_ALERT) :
    handle_alerts m latency failure_rate now roll = some (m, []) ∧
      (handle_alerts m latency failure_rate now roll).bind
        (fun r => handle_alerts r.1 latency failure_rate now roll) = some (m, []) := by
  have h1 : handle_alerts m latency failure_rate now roll = some (m, []) := by
    rw [handle_alerts_resolve m latency failure_rate now roll hc]
    obtain ⟨c, lg⟩ := m
    cases c with
    | none => rfl
    | some a => simp at hm
  refine ⟨h1, ?_⟩
  rw [h1, Option.some_bind]
  exact h1

theorem claim_C10_witness :
    CloudMonitor.init.current_alert = none ∧
      classify_alert 100 1 = some AlertLevel.NO_ALERT ∧
      (handle_alerts CloudMonitor.init 100 1 7 false = some (CloudMonitor.init, []) ∧
        (handle_alerts CloudMonitor.init 100 1 7 false).bind
          (fun r => handle_alerts r.1 100 1 7 false) = some (CloudMonitor.init, [])) :=
  ⟨rfl, by decide, claim_C10_idempotent_noop CloudMonitor.init 100 1 7 false rfl (by decide)⟩

/-- C5: a sample classifying strictly lower than the open alert's severity
    but above `NO_ALERT` leaves the whole monitor state untouched and emits
    no primary-recipient notification; moreover an open alert's severity
    rank never decreases across any `handle_alerts` step whose post-state
    still holds an alert (downgrade only happens via full resolution). -/
theorem claim_C5_lower_ignored_no_downgrade :
    (∀ (m m' : CloudMonitor) (cur : Alert) (latency failure_rate now : ℚ) (roll : Bool)
        (lvl : AlertLevel) (effs : List Effect),
        classify_alert latency failure_rate = some lvl →
        lvl ≠ AlertLevel.NO_ALERT →
        m.current_alert = some cur →
        cur.alert_level ≠ AlertLevel.NO_ALERT →
        lvl.rank < cur.alert_level.rank →
        handle_alerts m latency failure_rate now roll = some (m', effs) →
        m' = m ∧ notifyCount effs primary_recipient = 0) ∧
    (∀ (m m' : CloudMonitor) (cur a' : Alert) (latency failure_rate now : ℚ) (roll : Bool)
        (effs : List Effect),
        m.current_alert = some cur →
        handle_alerts m latency failure_rate now roll = some (m', effs) →
        m'.current_alert = some a' →
        cur.alert_level.rank ≤ a'.alert_level.rank) := by
  constructor
  · intro m m' cur latency failure_rate now roll lvl effs hc hlvl hm hcur hrank h
    obtain ⟨rt, hrt, -⟩ := repeat_time_exists cur.alert_level hcur
    rw [handle_alerts_lower m cur latency failure_rate now roll lvl rt hc hlvl hm hcur
      hrank hrt] at h
    simp only [Option.some.injEq, Prod.mk.injEq] at h
    obtain ⟨h1, h2⟩ := h
    subst h1
    rw [← h2, notifyCount_append, notifyCount_sec_ite, notifyCount_remed_ite]
    exact ⟨rfl, rfl⟩
  · intro m m' cur a' latency failure_rate now roll effs hm h ha
    obtain ⟨-, hcase⟩ := handle_alerts_inv_cases m m' latency failure_rate now roll effs h
    rcases hcase with hnone | ⟨lvl, hcc, hlvl, hfresh, hstr⟩ | ⟨cur2, hm2, hkeep⟩ |
      ⟨cur2, rt, hm2, hupd, -, -⟩
    · rw [hnone] at ha
      cases ha
    · rw [hfresh] at ha
      injection ha with ha'
      subst ha'
      have hstr' := hstr cur hm
      by_cases hND : cur.alert_level = AlertLevel.NO_ALERT
      · rw [hND] at hstr'
        exact absurd hstr' (not_value_lt_no_alert lvl hlvl)
      · have := (value_data_lt_iff lvl cur.alert_level hlvl hND).mp hstr'
        simpa [Alert.create] using this.le
    · rw [hm2] at hm
      injection hm with hm'
      subst hm'
      rw [hkeep] at ha
      injection ha with ha'
      subst ha'
      exact le_refl _
    · rw [hm2] at hm
      injection hm with hm'
      subst hm'
      rw [hupd] at ha
      injection ha with ha'
      subst ha'
      simp [Alert.update_last_notified]

theorem claim_C5_witness :
    classify_alert 600 0 = some AlertLevel.P2 ∧
      AlertLevel.P2 ≠ AlertLevel.NO_ALERT ∧
      AlertLevel.P2.rank < AlertLevel.P1.rank ∧
      (handle_alerts { current_alert := some ⟨.P1, 0, 0⟩, log_history := [] } 600 0 1 false =
          some ({ current_alert := some ⟨.P1, 0, 0⟩, log_history := [] },
                [] ) →
        ({ current_alert := some ⟨.P1, 0, 0⟩, log_history := [] } : CloudMonitor) =
            { current_alert := some ⟨.P1, 0, 0⟩, log_history := [] } ∧
          notifyCount [] primary_recipient = 0) :=
  ⟨by decide, by decide, by decide,
   fun h => (claim_C5_lower_ignored_no_downgrade.1
     { current_alert := some ⟨.P1, 0, 0⟩, log_history := [] }
     { current_alert := some ⟨.P1, 0, 0⟩, log_history := [] }
     ⟨.P1, 0, 0⟩ 600 0 1 false .P2 [] (by decide) (by decide) rfl (by decide) (by decide) h)⟩

/-- C7: if every open alert of the pre-state satisfies
    `trigger_time ≤ last_notified`, then so does every open alert of the
    post-state: alert creation sets both timestamps to `now`, and the only
    mutation bumps `last_notified` forward to `now`, leaving `trigger_time`
    unchanged. -/
theorem claim_C7_timestamps_invariant
    (m m' : CloudMonitor) (latency failure_rate now : ℚ) (roll : Bool) (effs : List Effect)
    (hinv : ∀ a, m.current_alert = some a → a.trigger_time ≤ a.last_notified)
    (h : handle_alerts m latency failure_rate now roll = some (m', effs)) :
    ∀ a', m'.current_alert = some a' → a'.trigger_time ≤ a'.last_notified := by
  intro a' ha
  obtain ⟨-, hcase⟩ := handle_alerts_inv_cases m m' latency failure_rate now roll effs h
  rcases hcase with hnone | ⟨lvl, -, -, hfresh, -⟩ | ⟨cur, hm, hkeep⟩ |
    ⟨cur, rt, hm, hupd, hrt, hdue⟩
  · rw [hnone] at ha
    cases ha
  · rw [hfresh] at ha
    injection ha with ha'
    subst ha'
    simp [Alert.create]
  · rw [hkeep] at ha
    injection ha with ha'
    subst ha'
    exact hinv _ hm
  · rw [hupd] at ha
    injection ha with ha'
    subst ha'
    have hpos := repeat_time_pos cur.alert_level rt hrt
    have := hinv cur hm
    simp only [Alert.update_last_notified]
    linarith

theorem claim_C7_witness :
    (∀ a, ({ current_alert := some ⟨.P0, 3, 4⟩, log_history := [] } : CloudMonitor).current_alert
        = some a → a.trigger_time ≤ a.last_notified) ∧
      handle_alerts { current_alert := some ⟨.P0, 3, 4⟩, log_history := [] } 2500 0 10 false =
        some ({ current_alert := some ⟨.P0, 3, 10⟩, log_history := [] },
              [Effect.notify .P0 primary_recipient]) ∧
      (∀ a', ({ current_alert := some ⟨.P0, 3, 10⟩, log_history := [] } : CloudMonitor).current_alert
        = some a' → a'.trigger_time ≤ a'.last_notified) := by
  have hpre : ∀ a, ({ current_alert := some ⟨.P0, 3, 4⟩, log_history := [] } :
      CloudMonitor).current_alert = some a → a.trigger_time ≤ a.last_notified := by
    intro a ha
    injection ha with ha'
    subst ha'
    norm_num
  have hstep : handle_alerts { current_alert := some ⟨.P0, 3, 4⟩, log_history := [] }
      2500 0 10 false =
      some ({ current_alert := some ⟨.P0, 3, 10⟩, log_history := [] },
            [Effect.notify .P0 primary_recipient]) := by
    have h := handle_alerts_resend { current_alert := some ⟨.P0, 3, 4⟩, log_history := [] }
      ⟨.P0, 3, 4⟩ 2500 0 10 false 2 (by decide) rfl (by decide) rfl (by norm_num)
    rw [h]
    norm_num [Alert.update_last_notified]
  exact ⟨hpre, hstep,
    claim_C7_timestamps_invariant _ _ 2500 0 10 false _ hpre hstep⟩

/-- C9: under the invariant that any open alert's severity is not
    `NO_ALERT` (alerts are only created from non-`NO_ALERT`
    classifications), `handle_alerts` always succeeds — every repeat-time
    table lookup is defined — and the post-state satisfies the same
    invariant. -/
theorem claim_C9_total_no_failure
    (m : CloudMonitor) (latency failure_rate now : ℚ) (roll : Bool)
    (hinv : ∀ a, m.current_alert = some a → a.alert_level ≠ AlertLevel.NO_ALERT) :
    ∃ m' effs, handle_alerts m latency failure_rate now roll = some (m', effs) ∧
      ∀ a', m'.current_alert = some a' → a'.alert_level ≠ AlertLevel.NO_ALERT := by
  obtain ⟨lvl, hcc⟩ := classify_total latency failure_rate
  by_cases hno : lvl = AlertLevel.NO_ALERT
  · subst hno
    refine ⟨_, _, handle_alerts_resolve m latency failure_rate now roll hcc, ?_⟩
    intro a' ha
    exact Option.noConfusion ha
  · cases hm : m.current_alert with
    | none =>
      refine ⟨_, _, handle_alerts_open_new m latency failure_rate now roll lvl hcc hno hm, ?_⟩
      intro a' ha
      have ha' : Alert.create lvl now = a' := by simpa using ha
      subst ha'
      simpa [Alert.create] using hno
    | some cur =>
      have hcur := hinv cur hm
      rcases lt_trichotomy cur.alert_level.rank lvl.rank with hr | hr | hr
      · refine ⟨_, _,
          handle_alerts_escalate m cur latency failure_rate now roll lvl hcc hno hm hcur hr, ?_⟩
        intro a' ha
        have ha' : Alert.create lvl now = a' := by simpa using ha
        subst ha'
        simpa [Alert.create] using hno
      · have heq : lvl = cur.alert_level := (rank_inj cur.alert_level lvl hr).symm
        obtain ⟨rt, hrt, -⟩ := repeat_time_exists cur.alert_level hcur
        by_cases hdue : now - cur.last_notified ≥ rt
        · refine ⟨_, _,
            handle_alerts_resend m cur latency failure_rate now roll rt (heq ▸ hcc) hm hcur
              hrt hdue, ?_⟩
          intro a' ha
          have ha' : cur.update_last_notified now = a' := by simpa using ha
          subst ha'
          simpa [Alert.update_last_notified] using hcur
        · refine ⟨_, _,
            handle_alerts_no_resend m cur latency failure_rate now roll rt (heq ▸ hcc) hm hcur
              hrt hdue, ?_⟩
          intro a' ha
          rw [hm] at ha
          injection ha with ha'
          subst ha'
          exact hcur
      · obtain ⟨rt, hrt, -⟩ := repeat_time_exists cur.alert_level hcur
        refine ⟨_, _,
          handle_alerts_lower m cur latency failure_rate now roll lvl rt hcc hno hm hcur
            hr hrt, ?_⟩
        intro a' ha
        rw [hm] at ha
        injection ha with ha'
        subst ha'
        exact hcur

theorem claim_C9_witness :
    (∀ a, ({ current_alert := some ⟨.P2, 0, 0⟩, log_history := [] } : CloudMonitor).current_alert
        = some a → a.alert_level ≠ AlertLevel.NO_ALERT) ∧
      (∃ m' effs,
        handle_alerts { current_alert := some ⟨.P2, 0, 0⟩, log_history := [] } 600 0 1 false =
          some (m', effs) ∧
        ∀ a', m'.current_alert = some a' → a'.alert_level ≠ AlertLevel.NO_ALERT) := by
  have hpre : ∀ a, ({ current_alert := some ⟨.P2, 0, 0⟩, log_history := [] } :
      CloudMonitor).current_alert = some a → a.alert_level ≠ AlertLevel.NO_ALERT := by
    intro a ha
    injection ha with ha'
    subst ha'
    decide
  exact ⟨hpre, claim_C9_total_no_failure _ 600 0 1 false hpre⟩

/-- Primary notifications are invisible to the secondary count. -/
theorem notifyCount_primary_at_secondary (lvl : AlertLevel) :
    notifyCount [Effect.notify lvl primary_recipient] secondary_recipient = 0 := by
  simp [notifyCount, Effect.isNotifyTo, primary_recipient, secondary_recipient]

/-- C1: a non-`NO_ALERT` sample with no open alert installs a fresh alert
    at the sample's severity with `opened_at = last_notified_at = now` and
    emits exactly one primary-recipient notification; with an open,
    well-formed alert, the state becomes that same fresh alert together
    with exactly one primary notification precisely when the sample's
    severity strictly out-ranks the open one, and under no other severity
    comparison. -/
theorem claim_C1_open_escalate :
    (∀ (m : CloudMonitor) (latency failure_rate now : ℚ) (roll : Bool) (lvl : AlertLevel),
        classify_alert latency failure_rate = some lvl →
        lvl ≠ AlertLevel.NO_ALERT →
        m.current_alert = none →
        ∃ m' effs, handle_alerts m latency failure_rate now roll = some (m', effs) ∧
          m'.current_alert = some (Alert.create lvl now) ∧
          notifyCount effs primary_recipient = 1) ∧
    (∀ (m : CloudMonitor) (cur : Alert) (latency failure_rate now : ℚ) (roll : Bool)
        (lvl : AlertLevel),
        classify_alert latency failure_rate = some lvl →
        lvl ≠ AlertLevel.NO_ALERT →
        m.current_alert = some cur →
        cur.alert_level ≠ AlertLevel.NO_ALERT →
        cur.trigger_time ≤ cur.last_notified →
        ∃ m' effs, handle_alerts m latency failure_rate now roll = some (m', effs) ∧
          ((m'.current_alert = some (Alert.create lvl now) ∧
              notifyCount effs primary_recipient = 1) ↔
            cur.alert_level.rank < lvl.rank)) := by
  constructor
  · intro m latency failure_rate now roll lvl hc hlvl hm
    refine ⟨_, _, handle_alerts_open_new m latency failure_rate now roll lvl hc hlvl hm,
      by simp, ?_⟩
    simp [notifyCount_cons, notifyCount_remed_ite, Effect.isNotifyTo]
  · intro m cur latency failure_rate now roll lvl hc hlvl hm hcur hts
    rcases lt_trichotomy cur.alert_level.rank lvl.rank with hr | hr | hr
    · refine ⟨_, _,
        handle_alerts_escalate m cur latency failure_rate now roll lvl hc hlvl hm hcur hr, ?_⟩
      exact iff_of_true
        ⟨by simp, by simp [notifyCount_cons, notifyCount_remed_ite, Effect.isNotifyTo]⟩ hr
    · have heq : lvl = cur.alert_level := (rank_inj cur.alert_level lvl hr).symm
      subst heq
      obtain ⟨rt, hrt, hpos⟩ := repeat_time_exists cur.alert_level hcur
      by_cases hdue : now - cur.last_notified ≥ rt
      · refine ⟨_, _,
          handle_alerts_resend m cur latency failure_rate now roll rt hc hm hcur hrt hdue, ?_⟩
        refine iff_of_false ?_ (lt_irrefl _)
        rintro ⟨hstate, -⟩
        have hst : cur.update_last_notified now = Alert.create cur.alert_level now := by
          simpa using hstate
        have htr : cur.trigger_time = now := by
          simpa [Alert.update_last_notified, Alert.create, Alert.mk.injEq] using hst
        linarith
      · refine ⟨_, _,
          handle_alerts_no_resend m cur latency failure_rate now roll rt hc hm hcur hrt hdue, ?_⟩
        refine iff_of_false ?_ (lt_irrefl _)
        rintro ⟨-, hcount⟩
        rw [notifyCount_append, notifyCount_sec_ite, notifyCount_remed_ite] at hcount
        exact absurd hcount (by norm_num)
    · obtain ⟨rt, hrt, -⟩ := repeat_time_exists cur.alert_level hcur
      refine ⟨_, _,
        handle_alerts_lower m cur latency failure_rate now roll lvl rt hc hlvl hm hcur hr
          hrt, ?_⟩
      refine iff_of_false ?_ (Nat.lt_asymm hr)
      rintro ⟨-, hcount⟩
      rw [notifyCount_append, notifyCount_sec_ite, notifyCount_remed_ite] at hcount
      exact absurd hcount (by norm_num)

theorem claim_C1_witness :
    classify_alert 2500 0 = some AlertLevel.P0 ∧
      (∃ m' effs,
        handle_alerts { current_alert := some ⟨.P2, 0, 0⟩, log_history := [] } 2500 0 1 false =
          some (m', effs) ∧
        ((m'.current_alert = some (Alert.create .P0 1) ∧
            notifyCount effs primary_recipient = 1) ↔
          (AlertLevel.P2.rank < AlertLevel.P0.rank))) :=
  ⟨by decide,
   claim_C1_open_escalate.2 { current_alert := some ⟨.P2, 0, 0⟩, log_history := [] }
     ⟨.P2, 0, 0⟩ 2500 0 1 false .P0 (by decide) (by decide) rfl (by decide) (by norm_num)⟩

/-- C3: with an open, well-formed alert and a sample classifying at
    exactly its severity, the last-notified time is bumped to `now` with
    exactly one primary-recipient notification when
    `now - last_notified ≥ resend_interval[severity]`, and the state is
    left unchanged with zero primary notifications otherwise. -/
theorem claim_C3_resend_throttling
    (m : CloudMonitor) (cur : Alert) (latency failure_rate now : ℚ) (roll : Bool) (rt : ℚ)
    (hm : m.current_alert = some cur) (hcur : cur.alert_level ≠ AlertLevel.NO_ALERT)
    (hc : classify_alert latency failure_rate = some cur.alert_level)
    (hrt : ALERT_REPEAT_TIMES cur.alert_level = some rt) :
    ∃ m' effs, handle_alerts m latency failure_rate now roll = some (m', effs) ∧
      (now - cur.last_notified ≥ rt →
        m'.current_alert = some (cur.update_last_notified now) ∧
        notifyCount effs primary_recipient = 1) ∧
      (¬ (now - cur.last_notified ≥ rt) →
        m' = m ∧ notifyCount effs primary_recipient = 0) := by
  by_cases hdue : now - cur.last_notified ≥ rt
  · refine ⟨_, _,
      handle_alerts_resend m cur latency failure_rate now roll rt hc hm hcur hrt hdue,
      fun _ => ⟨by simp, ?_⟩, fun hnd => absurd hdue hnd⟩
    rw [notifyCount_cons, notifyCount_append, notifyCount_sec_ite, notifyCount_remed_ite]
    simp [Effect.isNotifyTo]
  · refine ⟨_, _,
      handle_alerts_no_resend m cur latency failure_rate now roll rt hc hm hcur hrt hdue,
      fun hd => absurd hd hdue, fun _ => ⟨rfl, ?_⟩⟩
    rw [notifyCount_append, notifyCount_sec_ite, notifyCount_remed_ite]

theorem claim_C3_witness :
    (∃ m' effs,
      handle_alerts { current_alert := some ⟨.P1, 0, 0⟩, log_history := [] } 1500 0 11 false =
        some (m', effs) ∧
      ((11 : ℚ) - 0 ≥ 12 →
        m'.current_alert = some ((⟨.P1, 0, 0⟩ : Alert).update_last_notified 11) ∧
        notifyCount effs primary_recipient = 1) ∧
      (¬ ((11 : ℚ) - 0 ≥ 12) →
        m' = { current_alert := some ⟨.P1, 0, 0⟩, log_history := [] } ∧
        notifyCount effs primary_recipient = 0)) ∧
    (∃ m' effs,
      handle_alerts { current_alert := some ⟨.P1, 0, 0⟩, log_history := [] } 1500 0 12 false =
        some (m', effs) ∧
      ((12 : ℚ) - 0 ≥ 12 →
        m'.current_alert = some ((⟨.P1, 0, 0⟩ : Alert).update_last_notified 12) ∧
        notifyCount effs primary_recipient = 1) ∧
      (¬ ((12 : ℚ) - 0 ≥ 12) →
        m' = { current_alert := some ⟨.P1, 0, 0⟩, log_history := [] } ∧
        notifyCount effs primary_recipient = 0)) :=
  ⟨claim_C3_resend_throttling { current_alert := some ⟨.P1, 0, 0⟩, log_history := [] }
     ⟨.P1, 0, 0⟩ 1500 0 11 false 12 rfl (by decide) (by decide) rfl,
   claim_C3_resend_throttling { current_alert := some ⟨.P1, 0, 0⟩, log_history := [] }
     ⟨.P1, 0, 0⟩ 1500 0 12 false 12 rfl (by decide) (by decide) rfl⟩

/-- C4 as stated is violated by an escalating call: a `P2` alert open at
    time 0 has crossed its secondary threshold by `now = 240`
    (`240 ≥ 48 × 5`), yet a `P0`-classifying sample at that instant
    replaces the alert (timestamps reset to 240) and the call emits no
    secondary-recipient notification. -/
theorem claim_C4_counterexample :
    ALERT_REPEAT_TIMES AlertLevel.P2 = some 48 ∧
      ((240 : ℚ) - 0 ≥ 48 * 5) ∧
      classify_alert 2500 0 = some AlertLevel.P0 ∧
      handle_alerts { current_alert := some ⟨.P2, 0, 0⟩, log_history := [] } 2500 0 240 false =
        some ({ current_alert := some ⟨.P0, 240, 240⟩, log_history := [] },
              [Effect.notify .P0 primary_recipient]) ∧
      notifyCount [Effect.notify .P0 primary_recipient] secondary_recipient = 0 := by
  refine ⟨rfl, by norm_num, by decide, ?_,
    notifyCount_primary_at_secondary .P0⟩
  have h := handle_alerts_escalate { current_alert := some ⟨.P2, 0, 0⟩, log_history := [] }
    ⟨.P2, 0, 0⟩ 2500 0 240 false .P0 (by decide) (by decide) rfl (by decide) (by decide)
  rw [h]
  rfl

/-- C4 (amended): once the open alert satisfies
    `now - opened_at ≥ resend_interval[severity] × 5`, every call whose
    sample classifies non-`NO_ALERT` at a rank at or below the open
    severity (i.e. does not escalate the alert) emits exactly one
    secondary-recipient notification — re-evaluated on every such call,
    not once per crossing. -/
theorem claim_C4_secondary_level_triggered
    (m : CloudMonitor) (cur : Alert) (latency failure_rate now : ℚ) (roll : Bool)
    (lvl : AlertLevel) (rt : ℚ)
    (hm : m.current_alert = some cur) (hcur : cur.alert_level ≠ AlertLevel.NO_ALERT)
    (hc : classify_alert latency failure_rate = some lvl) (hlvl : lvl ≠ AlertLevel.NO_ALERT)
    (hle : lvl.rank ≤ cur.alert_level.rank)
    (hrt : ALERT_REPEAT_TIMES cur.alert_level = some rt)
    (hopen : now - cur.trigger_time ≥ rt * 5) :
    ∃ m' effs, handle_alerts m latency failure_rate now roll = some (m', effs) ∧
      notifyCount effs secondary_recipient = 1 := by
  rcases Nat.lt_or_ge lvl.rank cur.alert_level.rank with hr | hr
  · refine ⟨_, _,
      handle_alerts_lower m cur latency failure_rate now roll lvl rt hc hlvl hm hcur hr
        hrt, ?_⟩
    rw [if_pos hopen, notifyCount_append, notifyCount_remed_ite,
      notifyCount_single_notify]
  · have heq : lvl = cur.alert_level := rank_inj lvl cur.alert_level (Nat.le_antisymm hle hr)
    subst heq
    by_cases hdue : now - cur.last_notified ≥ rt
    · refine ⟨_, _,
        handle_alerts_resend m cur latency failure_rate now roll rt hc hm hcur hrt hdue, ?_⟩
      rw [if_pos hopen, notifyCount_cons, notifyCount_append, notifyCount_remed_ite,
        notifyCount_single_notify]
      simp [Effect.isNotifyTo, primary_recipient, secondary_recipient]
    · refine ⟨_, _,
        handle_alerts_no_resend m cur latency failure_rate now roll rt hc hm hcur hrt
          hdue, ?_⟩
      rw [if_pos hopen, notifyCount_append, notifyCount_remed_ite,
        notifyCount_single_notify]

theorem claim_C4_witness :
    classify_alert 600 0 = some AlertLevel.P2 ∧
      ((240 : ℚ) - 0 ≥ 48 * 5) ∧
      (∃ m' effs,
        handle_alerts { current_alert := some ⟨.P2, 0, 0⟩, log_history := [] } 600 0 240 false =
          some (m', effs) ∧
        notifyCount effs secondary_recipient = 1) :=
  ⟨by decide, by norm_num,
   claim_C4_secondary_level_triggered { current_alert := some ⟨.P2, 0, 0⟩, log_history := [] }
     ⟨.P2, 0, 0⟩ 600 0 240 false .P2 48 rfl (by decide) (by decide) (by decide) (by decide)
     rfl (by norm_num)⟩

/-! ### The classification log -/

theorem log_status_history_of_lt (m : CloudMonitor) (latency failure_rate : ℚ)
    (lvl : AlertLevel) (now : ℚ) (h : m.log_history.length < LOG_CAPACITY) :
    (m.log_status latency failure_rate lvl now).log_history =
      m.log_history ++ [⟨now, latency, failure_rate, lvl⟩] := by
  have hc : ¬ ((m.log_history ++ [(⟨now, latency, failure_rate, lvl⟩ : LogEntry)]).length
      > LOG_CAPACITY) := by
    simp only [List.length_append, List.length_cons, List.length_nil, gt_iff_lt, not_lt]
    omega
  simp only [CloudMonitor.log_status]
  rw [if_neg hc]

theorem log_status_history_of_full (m : CloudMonitor) (latency failure_rate : ℚ)
    (lvl : AlertLevel) (now : ℚ) (h : m.log_history.length = LOG_CAPACITY) :
    (m.log_status latency failure_rate lvl now).log_history =
      (m.log_history ++ [(⟨now, latency, failure_rate, lvl⟩ : LogEntry)]).tail := by
  have hc : (m.log_history ++ [(⟨now, latency, failure_rate, lvl⟩ : LogEntry)]).length
      > LOG_CAPACITY := by
    simp only [List.length_append, List.length_cons, List.length_nil, gt_iff_lt]
    omega
  simp only [CloudMonitor.log_status]
  rw [if_pos hc]

/-- The log after a run is the concatenation of the old log and the fed
    records, with just enough of the oldest entries dropped to fit the
    capacity (provided the starting log is within capacity). -/
theorem run_log_history (samples : List (ℚ × ℚ × AlertLevel × ℚ)) :
    ∀ m : CloudMonitor, m.log_history.length ≤ LOG_CAPACITY →
      (run_log m samples).log_history =
        (m.log_history ++ samples.map entryOf).drop
          ((m.log_history ++ samples.map entryOf).length - LOG_CAPACITY) := by
  induction samples with
  | nil =>
    intro m hm
    have h0 : (m.log_history ++ ([] : List (ℚ × ℚ × AlertLevel × ℚ)).map entryOf).length
        - LOG_CAPACITY = 0 := by
      simp only [List.map_nil, List.append_nil]
      omega
    rw [h0]
    simp [run_log]
  | cons s ss ih =>
    intro m hm
    have hr0 : run_log m (s :: ss) =
        run_log (m.log_status s.1 s.2.1 s.2.2.1 s.2.2.2) ss := rfl
    rcases Nat.lt_or_ge m.log_history.length LOG_CAPACITY with hlt | hge
    · have hstep : (m.log_status s.1 s.2.1 s.2.2.1 s.2.2.2).log_history
          = m.log_history ++ [entryOf s] := by
        rw [log_status_history_of_lt m s.1 s.2.1 s.2.2.1 s.2.2.2 hlt]
        rfl
      have hlen1 : (m.log_status s.1 s.2.1 s.2.2.1 s.2.2.2).log_history.length
          ≤ LOG_CAPACITY := by
        rw [hstep]
        simp only [List.length_append, List.length_cons, List.length_nil]
        omega
      rw [hr0, ih _ hlen1, hstep]
      simp only [List.append_assoc, List.singleton_append, List.map_cons, List.nil_append]
    · have heq : m.log_history.length = LOG_CAPACITY := Nat.le_antisymm hm hge
      obtain ⟨a, log0, hlog⟩ : ∃ a t, m.log_history = a :: t := by
        cases hl : m.log_history with
        | nil =>
          rw [hl] at heq
          simp only [List.length_nil] at heq
          exact absurd heq.symm (by norm_num [LOG_CAPACITY])
        | cons a t => exact ⟨a, t, rfl⟩
      have hlen0 : log0.length + 1 = LOG_CAPACITY := by
        have h1 : (a :: log0).length = LOG_CAPACITY := by rw [← hlog]; exact heq
        simpa using h1
      have hstep : (m.log_status s.1 s.2.1 s.2.2.1 s.2.2.2).log_history
          = log0 ++ [entryOf s] := by
        rw [log_status_history_of_full m s.1 s.2.1 s.2.2.1 s.2.2.2 heq, hlog]
        rfl
      have hlen1 : (m.log_status s.1 s.2.1 s.2.2.1 s.2.2.2).log_history.length
          ≤ LOG_CAPACITY := by
        rw [hstep]
        simp only [List.length_append, List.length_cons, List.length_nil]
        omega
      rw [hr0, ih _ hlen1, hstep, hlog]
      simp only [List.append_assoc, List.singleton_append, List.map_cons, List.cons_append,
        List.nil_append]
      have hidx : (a :: (log0 ++ entryOf s :: ss.map entryOf)).length - LOG_CAPACITY
          = ((log0 ++ entryOf s :: ss.map entryOf).length - LOG_CAPACITY) + 1 := by
        simp only [List.length_cons, List.length_append, List.length_map]
        omega
      rw [hidx, List.drop_succ_cons]

/-- C8: a single `log_status` call keeps a within-capacity log within
    capacity; so does any run of calls; and feeding `LOG_CAPACITY + 1`
    samples into a fresh monitor leaves exactly `LOG_CAPACITY` records —
    the fed records in order with the first (oldest) one evicted, so the
    last sample's record is present at the end. -/
theorem claim_C8_log_capacity :
    LOG_CAPACITY = 25920 ∧
    (∀ (m : CloudMonitor) (latency failure_rate : ℚ) (lvl : AlertLevel) (now : ℚ),
        m.log_history.length ≤ LOG_CAPACITY →
        (m.log_status latency failure_rate lvl now).log_history.length ≤ LOG_CAPACITY) ∧
    (∀ (m : CloudMonitor) (samples : List (ℚ × ℚ × AlertLevel × ℚ)),
        m.log_history.length ≤ LOG_CAPACITY →
        (run_log m samples).log_history.length ≤ LOG_CAPACITY) ∧
    (∀ samples : List (ℚ × ℚ × AlertLevel × ℚ),
        samples.length = LOG_CAPACITY + 1 →
        (run_log CloudMonitor.init samples).log_history = (samples.map entryOf).tail ∧
        (run_log CloudMonitor.init samples).log_history.length = LOG_CAPACITY) := by
  refine ⟨by norm_num [LOG_CAPACITY], ?_, ?_, ?_⟩
  · intro m latency failure_rate lvl now hm
    rcases Nat.lt_or_ge m.log_history.length LOG_CAPACITY with hlt | hge
    · rw [log_status_history_of_lt m latency failure_rate lvl now hlt]
      simp only [List.length_append, List.length_cons, List.length_nil]
      omega
    · have heq : m.log_history.length = LOG_CAPACITY := Nat.le_antisymm hm hge
      rw [log_status_history_of_full m latency failure_rate lvl now heq]
      simp only [List.length_tail, List.length_append, List.length_cons, List.length_nil]
      omega
  · intro m samples hm
    rw [run_log_history samples m hm]
    simp only [List.length_drop, List.length_append, List.length_map]
    omega
  · intro samples hlen
    have h := run_log_history samples CloudMonitor.init (by simp [CloudMonitor.init])
    rw [show CloudMonitor.init.log_history = ([] : List LogEntry) from rfl] at h
    simp only [List.nil_append] at h
    have hmap : (samples.map entryOf).length = LOG_CAPACITY + 1 := by
      rw [List.length_map, hlen]
    rw [hmap] at h
    have hd : LOG_CAPACITY + 1 - LOG_CAPACITY = 1 := by omega
    rw [hd, List.drop_one] at h
    refine ⟨h, ?_⟩
    rw [h]
    simp only [List.length_tail, hmap]
    omega

theorem claim_C8_witness :
    ((List.replicate (LOG_CAPACITY + 1) ((0 : ℚ), (0 : ℚ), AlertLevel.NO_ALERT, (0 : ℚ))).length
        = LOG_CAPACITY + 1) ∧
      ((run_log CloudMonitor.init
          (List.replicate (LOG_CAPACITY + 1) ((0 : ℚ), (0 : ℚ), AlertLevel.NO_ALERT, (0 : ℚ)))).log_history
        = ((List.replicate (LOG_CAPACITY + 1)
            ((0 : ℚ), (0 : ℚ), AlertLevel.NO_ALERT, (0 : ℚ))).map entryOf).tail ∧
       (run_log CloudMonitor.init
          (List.replicate (LOG_CAPACITY + 1)
            ((0 : ℚ), (0 : ℚ), AlertLevel.NO_ALERT, (0 : ℚ)))).log_history.length
        = LOG_CAPACITY) :=
  ⟨List.length_replicate _ _,
   claim_C8_log_capacity.2.2.2 _ (List.length_replicate _ _)⟩
